import Mathlib

/-!
Verification of the clinicorp integration backend against its specification.

The Python modules under src/ are shallowly embedded as Lean definitions:
dictionaries with optional keys become structures with `Option` fields,
Python truthiness is modelled explicitly, exceptions become `Except`/`Option`
values, and the mutable relational tables become lists of row structures that
are threaded through the functions. Each section names the source file and
function it embeds.
-/

namespace Clinicorp

/-! ### Python helpers

Small combinators mirroring Python semantics used across the code base:
`dict.get` chains with `or` (falsy values fall through), `str()` applied to a
possibly missing value (`str(None) = "None"`), and digit filtering. -/

/-- Truthiness of an optional string: `None` and the empty string are falsy. -/
def pyTruthy : Option String → Bool
  | none => false
  | some s => s ≠ ""

/-- A chain `a or b or ... or dflt` over optional strings, as in the Python
field-fallback expressions. -/
def pyOrStr : List (Option String) → String → String
  | [], dflt => dflt
  | o :: rest, dflt =>
    match o with
    | some s => if s = "" then pyOrStr rest dflt else s
    | none => pyOrStr rest dflt

/-- Python `str(x)` where `x` came from `dict.get` and may be `None`. -/
def pyStr : Option String → String
  | none => "None"
  | some s => s

/-- Python `''.join(filter(str.isdigit, s))`. -/
def digitsOf (s : String) : String :=
  String.mk (s.toList.filter Char.isDigit)

/-- Python whitespace, for `str.strip()`. -/
def isSpacePy (c : Char) : Bool :=
  c = ' ' ∨ c = '\t' ∨ c = '\n' ∨ c = '\r' ∨ c = '\x0b' ∨ c = '\x0c'

/-- Python `s.strip()`. -/
def pyStrip (s : String) : String :=
  String.mk (((s.toList.dropWhile isSpacePy).reverse.dropWhile isSpacePy).reverse)

/-- Splitting a character list at every occurrence of `sep`
(Python `str.split(sep)` semantics: `"a::b"` gives three parts). -/
def splitChars (sep : Char) : List Char → List (List Char)
  | [] => [[]]
  | c :: rest =>
    match splitChars sep rest with
    | [] => if c = sep then [[], []] else [[c]]
    | g :: gs => if c = sep then [] :: g :: gs else (c :: g) :: gs

/-- Python `s.split(sep)` for a one-character separator. -/
def pySplit (sep : Char) (s : String) : List String :=
  (splitChars sep s.toList).map String.mk

/-- The number denoted by a list of decimal digits. -/
def natOfDigits (cs : List Char) : Nat :=
  cs.foldl (fun n c => n * 10 + (c.toNat - Char.toNat '0')) 0

/-- Containment of one character list inside another. -/
def listInfix (a b : List Char) : Bool :=
  b.tails.any (fun t => a.isPrefixOf t)

/-- Python substring containment `a in b` for strings. -/
def pySubstr (a b : String) : Bool :=
  listInfix a.toList b.toList

/-! ### Token manager (src/auth/token_manager.py)

`load_token` reads the token file. The file system outcome is embedded as an
inductive: the file may be missing, hold malformed JSON, or parse to a record.
The `expires_at` field of a parsed record is either falsy (absent/empty),
present but unparseable by `datetime.fromisoformat`, or a parsed instant;
instants are modelled as integers with `now` passed explicitly. -/

/-- The `expires_at` field of the token JSON document. -/
inductive ExpiresAt where
  | absent : ExpiresAt
  | unparseable : ExpiresAt
  | at (t : Int) : ExpiresAt
  deriving Repr, DecidableEq

/-- A parsed token JSON document: the `token` field (missing keys are `none`)
and the `expires_at` field. -/
structure TokenData where
  token : Option String
  expires_at : ExpiresAt
  deriving Repr, DecidableEq

/-- State of the token file on disk. -/
inductive TokenFile where
  | missing : TokenFile
  | malformed : TokenFile
  | parsed (td : TokenData) : TokenFile
  deriving Repr, DecidableEq

/-- `TokenManager.is_token_expired`: `None`/empty `token_data` is expired;
a falsy `expires_at` means never expired; an unparseable `expires_at` is
treated as not expired; otherwise expired iff `now >= expires_at`. -/
def is_token_expired (token_data : Option TokenData) (now : Int) : Bool :=
  match token_data with
  | none => true
  | some td =>
    match td.expires_at with
    | ExpiresAt.absent => false
    | ExpiresAt.unparseable => false
    | ExpiresAt.at t => decide (now ≥ t)

/-- `TokenManager.load_token`: returns `none` when the file is missing,
malformed, has no truthy `token` field, or the token is expired at `now`;
otherwise returns the token string. -/
def load_token (file : TokenFile) (now : Int) : Option String :=
  match file with
  | TokenFile.missing => none
  | TokenFile.malformed => none
  | TokenFile.parsed td =>
    match td.token with
    | none => none
    | some token =>
      if token = "" then none
      else if is_token_expired (some td) now then none
      else some token

/-! ### Agenda response normalization (src/api/agenda_api.py)

`AgendaAPI._processar_resposta_agenda` turns one raw remote appointment
dictionary into a normalized event or drops it (`continue`). Raw events are
embedded with exactly the keys the code reads; `AtomicDate` is the remote
8-digit integer date (the API delivers it as a number). -/

/-- A raw remote appointment dictionary, with the keys read by the code. -/
structure RawEvento where
  id : Option String := none
  AtomicDate : Option Nat := none
  atomicDate : Option Nat := none
  fromTime : Option String := none
  FromTime : Option String := none
  toTime : Option String := none
  ToTime : Option String := none
  Patient_PersonId : Option Nat := none
  Dentist_PersonId : Option Nat := none
  Deleted : Option String := none
  Type_ : Option String := none
  PatientName : Option String := none
  Name : Option String := none
  title : Option String := none
  Title : Option String := none
  Notes : Option String := none
  notes : Option String := none
  Procedures : Option String := none
  CategoryDescription : Option String := none
  description : Option String := none
  DentistName : Option String := none
  deriving Repr, DecidableEq

/-- A chain `a or b` over optional numbers: `None` and `0` are falsy. -/
def pyOrNat (a b : Option Nat) : Option Nat :=
  match a with
  | some n => if n = 0 then (match b with | some m => if m = 0 then none else some m | none => none) else some n
  | none => match b with | some m => if m = 0 then none else some m | none => none

/-- Python `int(s)` on a nonnegative decimal string, `none` when it raises
`ValueError` (sign and surrounding whitespace do not occur in these inputs). -/
def pyInt (s : String) : Option Nat :=
  if s ≠ "" ∧ s.toList.all Char.isDigit then some (natOfDigits s.toList)
  else none

/-- Number of days in a month, as validated by `datetime.__new__`. -/
def daysInMonth (ano mes : Nat) : Nat :=
  if mes = 2 then
    if ano % 4 = 0 ∧ (ano % 100 ≠ 0 ∨ ano % 400 = 0) then 29 else 28
  else if mes = 4 ∨ mes = 6 ∨ mes = 9 ∨ mes = 11 then 30
  else 31

/-- Whether `datetime(ano, mes, dia, hora, minuto)` succeeds. -/
def datetimeValid (ano mes dia hora minuto : Nat) : Bool :=
  1 ≤ ano ∧ ano ≤ 9999 ∧ 1 ≤ mes ∧ mes ≤ 12 ∧ 1 ≤ dia ∧ dia ≤ daysInMonth ano mes ∧
    hora < 24 ∧ minuto < 60

/-- A wall-clock timestamp (Brasília-local): calendar date plus time of day. -/
structure DataEvento where
  ano : Nat
  mes : Nat
  dia : Nat
  hora : Nat
  minuto : Nat
  deriving Repr, DecidableEq

/-- The date/time parsing block of `_processar_resposta_agenda`: converts
`AtomicDate` + `fromTime` into a timestamp and start hour. Returns `none`
exactly when the code leaves `data_evento`/`hora_evento` as `None` (falsy or
missing inputs, an `AtomicDate` string of length other than 8, or an exception
from `int(...)`/`datetime(...)`). -/
def parseDataEvento (atomic_date : Option Nat) (from_time : Option String) :
    Option DataEvento :=
  match atomic_date, from_time with
  | some ad, some ft =>
    if ad = 0 ∨ ft = "" then none
    else
      let atomic_str := toString ad
      if atomic_str.length = 8 then
        let ano := String.mk (atomic_str.toList.take 4)
        let mes := String.mk ((atomic_str.toList.drop 4).take 2)
        let dia := String.mk ((atomic_str.toList.drop 6).take 2)
        match pyInt ano, pyInt mes, pyInt dia with
        | some a, some m, some d =>
          let partes := pySplit ':' ft
          match partes with
          | [] => none
          | h :: resto =>
            match pyInt h with
            | none => none
            | some hora =>
              match resto with
              | [] =>
                if datetimeValid a m d hora 0 then
                  some ⟨a, m, d, hora, 0⟩
                else none
              | mstr :: _ =>
                match pyInt mstr with
                | none => none
                | some minuto =>
                  if datetimeValid a m d hora minuto then
                    some ⟨a, m, d, hora, minuto⟩
                  else none
        | _, _, _ => none
      else none
  | _, _ => none

/-- A normalized event, as appended to the result list. -/
structure EventoProcessado where
  id : Option String
  titulo : String
  descricao : String
  data : Option DataEvento
  data_atomic : Option Nat
  hora_inicio : Option String
  hora_fim : Option String
  hora_inicio_numero : Option Nat
  profissional : String
  categoria : String
  paciente_id : Option Nat
  dentista_id : Option Nat
  tipo : String
  ocupado : Bool
  deletado : Bool
  deriving Repr, DecidableEq

/-- Processing of one raw event inside `_processar_resposta_agenda`:
`none` means the event was dropped by the hour-window filter, `some` the
normalized event. The filter applies only when date/time parsing succeeded. -/
def processarEvento (hora_inicio hora_fim : Nat) (ev : RawEvento) :
    Option EventoProcessado :=
  let atomic_date := pyOrNat ev.AtomicDate ev.atomicDate
  let from_time := pyOrStr [ev.fromTime, ev.FromTime] "" |>
    (fun s => if s = "" then none else some s)
  let to_time := pyOrStr [ev.toTime, ev.ToTime] "" |>
    (fun s => if s = "" then none else some s)
  let parsed := parseDataEvento atomic_date from_time
  match parsed with
  | some de =>
    if de.hora < hora_inicio ∨ de.hora ≥ hora_fim then none
    else some (mkEvento ev atomic_date from_time to_time (some de) (some de.hora))
  | none => some (mkEvento ev atomic_date from_time to_time none none)
where
  /-- Builds the normalized dictionary appended to `eventos`. -/
  mkEvento (ev : RawEvento) (atomic_date : Option Nat)
      (from_time to_time : Option String)
      (data : Option DataEvento) (hora_evento : Option Nat) : EventoProcessado :=
    let tem_paciente := ev.Patient_PersonId.isSome
    let deletado := ev.Deleted = some "X"
    { id := ev.id
      titulo := pyOrStr [ev.PatientName, ev.Name, ev.title, ev.Title] "Sem título"
      descricao := pyOrStr [ev.Notes, ev.notes, ev.Procedures,
        ev.CategoryDescription, ev.description] ""
      data := data
      data_atomic := atomic_date
      hora_inicio := from_time
      hora_fim := to_time
      hora_inicio_numero := hora_evento
      profissional := pyOrStr [ev.DentistName, ev.Name] ""
      categoria := pyOrStr [ev.CategoryDescription] ""
      paciente_id := ev.Patient_PersonId
      dentista_id := ev.Dentist_PersonId
      tipo := pyOrStr [ev.Type_] ""
      ocupado := tem_paciente && !deletado
      deletado := deletado }

/-- `_processar_resposta_agenda` over the extracted list of raw events. -/
def processarRespostaAgenda (hora_inicio hora_fim : Nat)
    (dados_agenda : List RawEvento) : List EventoProcessado :=
  dados_agenda.filterMap (processarEvento hora_inicio hora_fim)

/-! ### Availability computation (src/app/services/agenda_service.py)

`AgendaService.obter_agendas_disponiveis` works over naive Brasília-local
timestamps. A timestamp is a calendar day (an abstract integer day number,
since only date equality and within-day comparison are used) plus hour and
minute. The relational rows of `agenda_events` carry the fields the query and
the loops read. -/

/-- A naive local timestamp: day number plus time of day. -/
structure LocalDateTime where
  day : Int
  hour : Nat
  minute : Nat
  deriving Repr, DecidableEq

/-- Timestamp comparison (`<=` on datetimes), lexicographic. -/
def ldtLe (a b : LocalDateTime) : Bool :=
  a.day < b.day ∨ (a.day = b.day ∧
    (a.hour < b.hour ∨ (a.hour = b.hour ∧ a.minute ≤ b.minute)))

/-- One `agenda_events` row, restricted to the fields the availability
computation reads (`data` is `nullable=False` in the schema). -/
structure AgendaEventRow where
  evento_id : String
  data : LocalDateTime
  hora_fim : Option String := none
  dentista_id : Option String := none
  ocupado : Bool := false
  deletado : Bool := false
  deriving Repr, DecidableEq

/-- The inner `while` of the occupied-slot expansion: starting at cell
`(h, m)`, emit 30-minute cells while `(h, m)` is before the event end
`(he, me)`, keeping only cells whose hour lies inside the requested window. -/
def slotsDoEvento (horaIni horaFim he me : Nat) (h m : Nat) :
    List (Nat × Nat) :=
  if _hcond : h < he ∨ (h = he ∧ m < me) then
    (if horaIni ≤ h ∧ h < horaFim then [(h, m)] else []) ++
      (if m + 30 ≥ 60 then slotsDoEvento horaIni horaFim he me (h + 1) 0
       else slotsDoEvento horaIni horaFim he me h (m + 30))
  else []
termination_by (he + 1 - h) * 61 + (60 - m)
decreasing_by
  · omega
  · omega

/-- Occupied cells contributed by one fetched event: skip events of another
day, parse the stored `hora_fim` (keeping the start+30 default on parse
failure; when only the hour part parses, the hour is already assigned before
the minute parse raises), then run the expansion loop from the start time
rounded down to the nearest 30-minute boundary. -/
def slotsOcupadosDoEvento (horaIni horaFim : Nat) (dataNormDay : Int)
    (ev : AgendaEventRow) : List (Nat × Nat) :=
  let d := ev.data
  if d.day ≠ dataNormDay then []
  else
    let hi := d.hour
    let mi := d.minute
    let fim : Nat × Nat :=
      match ev.hora_fim with
      | none => (hi, mi + 30)
      | some hf_str =>
        if hf_str = "" then (hi, mi + 30)
        else
          match pySplit ':' hf_str with
          | a :: b :: _ =>
            (match pyInt a, pyInt b with
             | some x, some y => (x, y)
             | some x, none => (x, mi + 30)
             | none, _ => (hi, mi + 30))
          | _ => (hi, mi + 30)
    slotsDoEvento horaIni horaFim fim.1 fim.2 hi ((mi / 30) * 30)

/-- An availability slot, as emitted (`{hora_inicio, hora_fim}` strings). -/
structure Slot where
  hora_inicio : String
  hora_fim : String
  deriving Repr, DecidableEq

/-- Python `f"{h}:{m:02d}"`. -/
def fmtHora (h m : Nat) : String :=
  toString h ++ ":" ++ (if m < 10 then "0" ++ toString m else toString m)

/-- End of the 30-minute slot starting at `(h, m)`: add 30 minutes, carrying
into the next hour at 60. The same computation advances the loop cell
(`minuto_slot += 30`, wrap). -/
def fimSlot (h m : Nat) : Nat × Nat :=
  if m + 30 ≥ 60 then (h + 1, 0) else (h, m + 30)

/-- The slot-generation `while` loop: walk 30-minute cells from `(h, m)`
while the hour is below `horaFim`; when the day is today, skip cells before
the next-slot boundary `(pH, pM)`; stop when a slot would end past `horaFim`;
emit cells not contained in the occupied set. -/
def gerarSlots (ehHoje : Bool) (pH pM horaIni horaFim : Nat)
    (ocupados : List (Nat × Nat)) (h m : Nat) : List Slot :=
  if _hcond : h < horaFim then
    if ehHoje ∧ (h < pH ∨ (h = pH ∧ m < pM)) then
      gerarSlots ehHoje pH pM horaIni horaFim ocupados
        (fimSlot h m).1 (fimSlot h m).2
    else
      if (fimSlot h m).1 > horaFim ∨
          ((fimSlot h m).1 = horaFim ∧ (fimSlot h m).2 > 0) then []
      else if (h, m) ∈ ocupados then
        gerarSlots ehHoje pH pM horaIni horaFim ocupados
          (fimSlot h m).1 (fimSlot h m).2
      else
        ⟨fmtHora h m, fmtHora (fimSlot h m).1 (fimSlot h m).2⟩ ::
          gerarSlots ehHoje pH pM horaIni horaFim ocupados
            (fimSlot h m).1 (fimSlot h m).2
  else []
termination_by (horaFim + 1 - h) * 61 + (60 - m)
decreasing_by
  all_goals simp only [fimSlot]
  all_goals split
  all_goals simp only []
  all_goals omega

/-- The next aligned 30-minute boundary as computed for a today request:
`((minute // 30) + 1) * 30`, carrying into the next hour at 60. -/
def proximoSlot (agora : LocalDateTime) : Nat × Nat :=
  let m := ((agora.minute / 30) + 1) * 30
  if m ≥ 60 then (agora.hour + 1, 0) else (agora.hour, m)

/-- `AgendaService.obter_agendas_disponiveis`: empty when the store is
disconnected; otherwise query the non-deleted occupied events of the target
day (optionally one professional), expand them into occupied cells, and emit
every free 30-minute cell of the window, suppressing cells before the
next-slot boundary when the target day is today. -/
def obter_agendas_disponiveis (connected : Bool) (rows : List AgendaEventRow)
    (agora : LocalDateTime) (data : LocalDateTime)
    (hora_inicio : Nat) (hora_fim : Nat)
    (profissional_id : Option String) : List Slot :=
  if !connected then []
  else
    let data_normalizada : LocalDateTime := ⟨data.day, 0, 0⟩
    let eh_hoje := data_normalizada.day = agora.day
    let pSlot := if eh_hoje then proximoSlot agora else (hora_inicio, 0)
    let inicio_dia := data_normalizada
    let fim_dia : LocalDateTime := ⟨data.day, 23, 59⟩
    let eventos_ocupados := rows.filter fun r =>
      !r.deletado && r.ocupado && ldtLe inicio_dia r.data && ldtLe r.data fim_dia &&
        (if pyTruthy profissional_id then r.dentista_id == profissional_id else true)
    let slots_ocupados :=
      (eventos_ocupados.map
        (slotsOcupadosDoEvento hora_inicio hora_fim data_normalizada.day)).flatten
    gerarSlots eh_hoje pSlot.1 pSlot.2 hora_inicio hora_fim slots_ocupados
      hora_inicio 0

/-! ### Sync service persistence (src/app/services/agenda_service.py)

`_salvar_profissionais_no_banco` and `_salvar_eventos_no_banco` upsert the
fetched dictionaries into the `profissionais` and `agenda_events` tables,
which are embedded as lists of rows. `session.query(...).filter_by(...)
.first()` is a first-match lookup; `session.add` appends a row. -/

/-- One professional dictionary as fetched (`listar_profissionais` output or
any dictionary): `id`, `nome`, optional `dados_originais`, and `raw`, an
opaque tag standing for the dictionary object itself (the default of
`prof_data.get('dados_originais', prof_data)`). -/
structure ProfData where
  id : Option String := none
  nome : Option String := none
  dados_originais : Option String := none
  raw : String := ""
  deriving Repr, DecidableEq

/-- One `profissionais` row (timestamps omitted). -/
structure DbProf where
  profissional_id : String
  nome : String
  ativo : Bool
  dados_originais : String := ""
  deriving Repr, DecidableEq

/-- Update the first row matching `pid` (the `.first()` row) in place. -/
def updateFirstProf (db : List DbProf) (pid nome dados : String) : List DbProf :=
  match db with
  | [] => []
  | r :: rest =>
    if r.profissional_id = pid then
      { r with nome := nome, ativo := true, dados_originais := dados } :: rest
    else r :: updateFirstProf rest pid nome dados

/-- The upsert loop of `_salvar_profissionais_no_banco`. -/
def salvarProfLoop : List ProfData → List DbProf → Nat → List DbProf × Nat
  | [], db, count => (db, count)
  | p :: rest, db, count =>
    let pid := pyStr p.id
    if pid = "" then salvarProfLoop rest db count
    else
      let nome := p.nome.getD "Sem nome"
      let dados := p.dados_originais.getD p.raw
      let db2 :=
        if (db.find? (fun r => r.profissional_id == pid)).isSome then
          updateFirstProf db pid nome dados
        else
          db ++ [{ profissional_id := pid, nome := nome, ativo := true,
                   dados_originais := dados }]
      salvarProfLoop rest db2 (count + 1)

/-- The ids of the update set: `{str(p.get('id')) for p in profissionais if
p.get('id')}`. -/
def idsAtualizados (profissionais : List ProfData) : List String :=
  profissionais.filterMap fun p =>
    if pyTruthy p.id then some (pyStr p.id) else none

/-- `_salvar_profissionais_no_banco`: returns `(new table, count)`; after the
upsert loop, every active row whose id is not in the update set is flipped to
`ativo := false` (soft deactivation, no row removal). -/
def salvar_profissionais_no_banco (connected : Bool)
    (profissionais : List ProfData) (db : List DbProf) : List DbProf × Nat :=
  if !connected then (db, 0)
  else
    let res := salvarProfLoop profissionais db 0
    let ids := idsAtualizados profissionais
    let db2 := res.1.map fun r =>
      if r.ativo ∧ r.profissional_id ∉ ids then { r with ativo := false } else r
    (db2, res.2)

/-- One `agenda_events` row, with the fields the upsert writes
(timestamps omitted). -/
structure DbEvento where
  evento_id : String
  titulo : String
  descricao : String
  data : Option DataEvento
  data_atomic : Option Nat
  hora_inicio : Option String
  hora_fim : Option String
  hora_inicio_numero : Option Nat
  profissional : String
  categoria : String
  paciente_id : Option String
  dentista_id : Option String
  tipo : String
  ocupado : Bool
  deletado : Bool
  deriving Repr, DecidableEq

/-- `str(x) if x else None` on a numeric field (`0` is falsy). -/
def optNatToStrTruthy : Option Nat → Option String
  | none => none
  | some n => if n = 0 then none else some (toString n)

/-- The field assignments shared by the update and insert branches of
`_salvar_eventos_no_banco`. The processed `data` string round-trips through
`fromisoformat`/`astimezone` back to the same Brasília wall-clock value. -/
def eventoRowOf (evento_id : String) (e : EventoProcessado) : DbEvento :=
  { evento_id := evento_id
    titulo := e.titulo
    descricao := e.descricao
    data := e.data
    data_atomic := e.data_atomic
    hora_inicio := e.hora_inicio
    hora_fim := e.hora_fim
    hora_inicio_numero := e.hora_inicio_numero
    profissional := e.profissional
    categoria := e.categoria
    paciente_id := optNatToStrTruthy e.paciente_id
    dentista_id := optNatToStrTruthy e.dentista_id
    tipo := e.tipo
    ocupado := e.ocupado
    deletado := e.deletado }

/-- Update the first row matching `evento_id` in place. -/
def updateFirstEvento (db : List DbEvento) (eid : String)
    (e : EventoProcessado) : List DbEvento :=
  match db with
  | [] => []
  | r :: rest =>
    if r.evento_id = eid then eventoRowOf eid e :: rest
    else r :: updateFirstEvento rest eid e

/-- The upsert loop of `_salvar_eventos_no_banco`
(`evento_id = str(evento_data.get('id'))`, skipped only when falsy). -/
def salvarEventosLoop : List EventoProcessado → List DbEvento → Nat →
    List DbEvento × Nat
  | [], db, count => (db, count)
  | e :: rest, db, count =>
    let eid := pyStr e.id
    if eid = "" then salvarEventosLoop rest db count
    else
      let db2 :=
        if (db.find? (fun r => r.evento_id == eid)).isSome then
          updateFirstEvento db eid e
        else db ++ [eventoRowOf eid e]
      salvarEventosLoop rest db2 (count + 1)

/-- `_salvar_eventos_no_banco`: returns `(new table, count)`. -/
def salvar_eventos_no_banco (connected : Bool)
    (eventos : List EventoProcessado) (db : List DbEvento) :
    List DbEvento × Nat :=
  if !connected then (db, 0)
  else salvarEventosLoop eventos db 0

/-! ### Full sync cycle (src/app/services/agenda_service.py)

`sincronizar_agenda` is embedded over an environment carrying the store
connectivity and the outcomes of the two Clinicorp fetches (each may raise,
modelled as `Except`: `.error e` is an exception whose `str(e)` is `e`).
`_registrar_historico` appends one `sync_history` row when the store is
connected (its own insert failures are caught and logged; the appended record
is what the code hands to the insert). State is threaded explicitly; an
exception carries the professional table as already mutated at the point of
the raise, since Python does not roll it back. -/

/-- Environment of one sync run. -/
structure SyncEnv where
  dbConnected : Bool
  listarProfissionais : Except String (List ProfData)
  buscarAgenda : Except String (List EventoProcessado)

/-- One `sync_history` row (timestamps and the nominal window omitted). -/
structure HistRecord where
  total_eventos : Nat
  eventos_ocupados : Nat
  eventos_livres : Nat
  total_profissionais : Nat
  sucesso : Bool
  erro : Option String
  deriving Repr, DecidableEq

/-- `_registrar_historico`: appends one row when connected. -/
def registrar_historico (connected : Bool) (rec : HistRecord)
    (hist : List HistRecord) : List HistRecord :=
  if connected then hist ++ [rec] else hist

/-- The dictionary `sincronizar_agenda` returns. -/
structure SyncResult where
  sucesso : Bool
  erro : Option String := none
  total_profissionais : Option Nat := none
  profissionais_salvos : Option Nat := none
  total_eventos : Option Nat := none
  eventos_ocupados : Option Nat := none
  eventos_livres : Option Nat := none
  eventos_salvos : Option Nat := none
  deriving Repr, DecidableEq

/-- Full state after a sync run: the returned dictionary and the three
tables. -/
structure SyncState where
  resultado : SyncResult
  profs : List DbProf
  eventos : List DbEvento
  hist : List HistRecord
  deriving Repr, DecidableEq

/-- `sincronizar_agenda` over a full initial state; the `try` block is the
`body` value, whose error carries `str(e)` and the professional table as
mutated at the point of the raise. -/
def sincronizar_agenda (env : SyncEnv) (profDb : List DbProf)
    (evDb : List DbEvento) (hist : List HistRecord) : SyncState :=
  let body : Except (String × List DbProf) SyncState :=
    if !env.dbConnected then
      Except.ok ⟨{ sucesso := false, erro := some "Banco de dados nao conectado" },
        profDb, evDb, hist⟩
    else
      match env.listarProfissionais with
      | Except.error e => Except.error (e, profDb)
      | Except.ok profissionais =>
        let resProf := salvar_profissionais_no_banco true profissionais profDb
        match env.buscarAgenda with
        | Except.error e => Except.error (e, resProf.1)
        | Except.ok eventos_gerais =>
          let todos_eventos := eventos_gerais
          let eventos_ocupados := todos_eventos.filter (fun e => e.ocupado)
          let eventos_livres := todos_eventos.filter (fun e => !e.ocupado)
          let resEv := salvar_eventos_no_banco true todos_eventos evDb
          let hist1 := registrar_historico true
            ⟨todos_eventos.length, eventos_ocupados.length,
             eventos_livres.length, profissionais.length, true, none⟩ hist
          Except.ok ⟨{ sucesso := true
                       total_profissionais := some profissionais.length
                       profissionais_salvos := some resProf.2
                       total_eventos := some todos_eventos.length
                       eventos_ocupados := some eventos_ocupados.length
                       eventos_livres := some eventos_livres.length
                       eventos_salvos := some resEv.2 },
            resProf.1, resEv.1, hist1⟩
  match body with
  | Except.ok st => st
  | Except.error (e, profDb1) =>
    let hist1 := registrar_historico env.dbConnected
      ⟨0, 0, 0, 0, false, some e⟩ hist
    ⟨{ sucesso := false, erro := some e }, profDb1, evDb, hist1⟩

/-! ### Patient search by phone (src/api/agenda_api.py)

`AgendaAPI.buscar_paciente_por_telefone`: strip the query to digits, call the
remote search, and return the first candidate whose cleaned phone matches by
substring in either direction. The remote response is embedded as the
candidate list already extracted from the payload. -/

/-- One raw patient dictionary from the search response. -/
structure PacDict where
  id : Option Nat := none
  Name : Option String := none
  MobilePhone : Option String := none
  Phone : Option String := none
  Email : Option String := none
  deriving Repr, DecidableEq

/-- The normalized patient record returned to the caller. -/
structure Paciente where
  id : Option Nat
  nome : String
  telefone : String
  email : String
  deriving Repr, DecidableEq

/-- The phone comparison of the candidate loop. -/
def telefoneBate (telefone_limpo : String) (p : PacDict) : Bool :=
  let mobile_phone := digitsOf (p.MobilePhone.getD "")
  let phone := digitsOf (p.Phone.getD "")
  pySubstr telefone_limpo mobile_phone || pySubstr telefone_limpo phone ||
    pySubstr mobile_phone telefone_limpo || pySubstr phone telefone_limpo

/-- `buscar_paciente_por_telefone`; `status200` is whether the remote call
returned HTTP 200, `pacientes` the extracted candidate list. -/
def buscar_paciente_por_telefone (telefone : String) (status200 : Bool)
    (pacientes : List PacDict) : Option Paciente :=
  let telefone_limpo := digitsOf telefone
  if telefone_limpo = "" then none
  else if !status200 then none
  else
    (pacientes.find? (telefoneBate telefone_limpo)).map fun p =>
      { id := p.id
        nome := p.Name.getD ""
        telefone := p.MobilePhone.getD ""
        email := p.Email.getD "" }

/-! ### The appointment-creation route (src/app/routes/agenda_routes.py)

`criar_agendamento` (POST `/agenda/criar`). After validation and the
known-patient check it calls `agenda_service.criar_agendamento(...,
nome_paciente=nome_paciente)`. `AgendaService.criar_agendamento` accepts only
`paciente_id, profissional_id, data, hora_inicio, hora_fim, observacoes,
procedimentos, telefone, email`, so by Python call semantics this call raises
`TypeError: criar_agendamento() got an unexpected keyword argument
'nome_paciente'`, which the handler's outer `except Exception` turns into an
HTTP 500. The embedding models that call site as this exception. -/

/-- The JSON body of POST `/agenda/criar` (fields the handler reads). -/
structure CriarBody where
  paciente_id : Option String := none
  profissional_id : Option String := none
  data : Option String := none
  hora_inicio : Option String := none
  hora_fim : Option String := none
  telefone : Option String := none
  nome_paciente : Option String := none
  observacoes : Option String := none
  email : Option String := none
  deriving Repr, DecidableEq

/-- Result of `ChatService.verificar_paciente_conhecido` for the body phone. -/
structure ChatInfo where
  conhecido : Bool
  nome : Option String := none
  deriving Repr, DecidableEq

/-- An HTTP response of the route (status plus the body fields the claims
inspect). -/
structure Response where
  status : Nat
  erro : Option String := none
  sucesso : Option Bool := none
  paciente_id : Option String := none
  deriving Repr, DecidableEq

/-- `datetime.strptime(data_str, "%Y-%m-%d")` succeeding. -/
def strptimeYmd (s : String) : Option (Nat × Nat × Nat) :=
  match pySplit '-' s with
  | [y, m, d] =>
    match pyInt y, pyInt m, pyInt d with
    | some a, some mo, some di =>
      if datetimeValid a mo di 0 0 then some (a, mo, di) else none
    | _, _, _ => none
  | _ => none

/-- The date-conversion block of the handler: parse `data_str`, then when
`hora_inicio` splits into at least two parts, re-set hour and minute
(`int(...)` and `datetime.replace` raise `ValueError` on bad input). -/
def converterDataRota (data_str hora_inicio : String) :
    Option (Nat × Nat × Nat × Nat × Nat) :=
  match strptimeYmd data_str with
  | none => none
  | some (a, mo, di) =>
    match pySplit ':' hora_inicio with
    | h :: m :: _ =>
      match pyInt h, pyInt m with
      | some hh, some mm =>
        if hh < 24 ∧ mm < 60 then some (a, mo, di, hh, mm) else none
      | _, _ => none
    | _ => some (a, mo, di, 0, 0)

/-- The `TypeError` message of the service call (see section header), with
the quotes around the argument name elided. -/
def msgTypeError : String :=
  "criar_agendamento() got an unexpected keyword argument nome_paciente"

/-- The POST `/agenda/criar` handler. -/
def route_criar_agendamento (chat : String → ChatInfo)
    (dados : Option CriarBody) : Response :=
  match dados with
  | none => { status := 400, erro := some "Body JSON e obrigatorio" }
  | some d =>
    let telefone := pyStrip (d.telefone.getD "")
    let nome_paciente0 := pyStrip (d.nome_paciente.getD "")
    if !pyTruthy d.profissional_id then
      { status := 400, erro := some "Campo profissional_id e obrigatorio" }
    else if !pyTruthy d.data then
      { status := 400, erro := some "Campo data e obrigatorio (formato: YYYY-MM-DD)" }
    else if !pyTruthy d.hora_inicio then
      { status := 400, erro := some "Campo hora_inicio e obrigatorio (formato: HH:MM)" }
    else if !pyTruthy d.hora_fim then
      { status := 400, erro := some "Campo hora_fim e obrigatorio (formato: HH:MM)" }
    else if telefone = "" then
      { status := 400, erro := some "Campo telefone e obrigatorio" }
    else
      let paciente_info := chat telefone
      let nome_paciente :=
        if paciente_info.conhecido then paciente_info.nome.getD nome_paciente0
        else nome_paciente0
      if !paciente_info.conhecido ∧ nome_paciente = "" then
        { status := 400, erro := some "Nome do paciente nao encontrado" }
      else
        match converterDataRota (d.data.getD "") (d.hora_inicio.getD "") with
        | none => { status := 400, erro := some "Formato de data invalido" }
        | some _ =>
          -- the service call with the unexpected nome_paciente keyword:
          -- TypeError, caught by the outer handler
          { status := 500, erro := some msgTypeError }

/-! ## Theorems -/

/-! ### Helper lemmas -/

/-- The empty string is a Python substring of every string. -/
theorem pySubstr_nil (s : String) : pySubstr "" s = true := by
  rw [pySubstr, listInfix, List.any_eq_true]
  exact ⟨s.toList, by simp [List.mem_tails], by simp [List.isPrefixOf]⟩

/-! ### C7 — token load -/

/-- Claim C7: Token Load returns absent whenever the token file does not
exist, is malformed JSON, contains no token field, or the stored expires_at
lies in the past at the time of the call; a record with absent expires_at is
treated as never expiring, so Load returns its token. -/
theorem load_token_spec :
    (∀ now, load_token TokenFile.missing now = none) ∧
    (∀ now, load_token TokenFile.malformed now = none) ∧
    (∀ ea now, load_token (TokenFile.parsed ⟨none, ea⟩) now = none) ∧
    (∀ tok t now, tok ≠ "" → t < now →
      load_token (TokenFile.parsed ⟨some tok, ExpiresAt.at t⟩) now = none) ∧
    (∀ tok now, tok ≠ "" →
      load_token (TokenFile.parsed ⟨some tok, ExpiresAt.absent⟩) now = some tok) := by
  refine ⟨fun _ => rfl, fun _ => rfl, fun _ _ => rfl, ?_, ?_⟩
  · intro tok t now hne hlt
    simp [load_token, is_token_expired, hne, le_of_lt hlt]
  · intro tok now hne
    simp [load_token, is_token_expired, hne]

/-- Witness for C7 at a concrete token record and instant. -/
theorem load_token_spec_witness :
    load_token (TokenFile.parsed ⟨some "tok123", ExpiresAt.at 5⟩) 10 = none ∧
    load_token (TokenFile.parsed ⟨some "tok123", ExpiresAt.absent⟩) 10 =
      some "tok123" :=
  ⟨load_token_spec.2.2.2.1 "tok123" 5 10 (by decide) (by decide),
   load_token_spec.2.2.2.2 "tok123" 10 (by decide)⟩

/-! ### C4 — half-open hour-window filter -/

/-- Claim C4: for every fetched event whose date and start time parse
successfully (to start hour `h`), the event is retained iff
`hora_inicio ≤ h < hora_fim`; so with window 9–18 an event starting 09:00 is
retained and one starting 18:00 is dropped. -/
theorem hour_window_filter (hora_inicio hora_fim : Nat) (ev : RawEvento)
    (de : DataEvento)
    (hparse : parseDataEvento (pyOrNat ev.AtomicDate ev.atomicDate)
      (if pyOrStr [ev.fromTime, ev.FromTime] "" = "" then none
       else some (pyOrStr [ev.fromTime, ev.FromTime] "")) = some de) :
    (processarEvento hora_inicio hora_fim ev).isSome ↔
      (hora_inicio ≤ de.hora ∧ de.hora < hora_fim) := by
  rw [processarEvento]
  simp only [hparse]
  by_cases h : de.hora < hora_inicio ∨ de.hora ≥ hora_fim
  · simp only [if_pos h, Option.isSome_none, Bool.false_eq_true, false_iff]
    omega
  · simp only [if_neg h, Option.isSome_some, true_iff]
    omega

/-- Witness for C4: window 9–18; an event parsed to start 09:00 is retained,
an event parsed to start 18:00 is dropped. -/
theorem hour_window_filter_witness :
    (processarEvento 9 18
      { AtomicDate := some 20250310, fromTime := some "09:00" }).isSome ∧
    ¬ (processarEvento 9 18
      { AtomicDate := some 20250310, fromTime := some "18:00" }).isSome := by
  constructor
  · exact (hour_window_filter 9 18
      { AtomicDate := some 20250310, fromTime := some "09:00" }
      ⟨2025, 3, 10, 9, 0⟩ (by decide)).mpr (by decide)
  · intro hsome
    exact absurd ((hour_window_filter 9 18
      { AtomicDate := some 20250310, fromTime := some "18:00" }
      ⟨2025, 3, 10, 18, 0⟩ (by decide)).mp hsome) (by decide)

/-! ### C5 — occupied determination -/

/-- Claim C5: every normalized event's `ocupado` flag is true iff
`Patient_PersonId` is present and `Deleted` is not `"X"`; in particular a
present patient id with `Deleted = "X"` or an absent patient id give
`ocupado = false`. -/
theorem ocupado_spec (hora_inicio hora_fim : Nat) (ev : RawEvento)
    (out : EventoProcessado)
    (hout : processarEvento hora_inicio hora_fim ev = some out) :
    (out.ocupado = true ↔ ev.Patient_PersonId.isSome ∧ ev.Deleted ≠ some "X") := by
  rw [processarEvento] at hout
  have hocc : out.ocupado =
      (ev.Patient_PersonId.isSome && !(decide (ev.Deleted = some "X"))) := by
    rcases hmatch : parseDataEvento (pyOrNat ev.AtomicDate ev.atomicDate)
        (if pyOrStr [ev.fromTime, ev.FromTime] "" = "" then none
         else some (pyOrStr [ev.fromTime, ev.FromTime] "")) with _ | de
    · simp only [hmatch] at hout
      cases hout
      rfl
    · simp only [hmatch] at hout
      by_cases hfil : de.hora < hora_inicio ∨ de.hora ≥ hora_fim
      · simp only [if_pos hfil] at hout; cases hout
      · simp only [if_neg hfil] at hout; cases hout; rfl
  rw [hocc]
  constructor
  · intro h
    simp only [Bool.and_eq_true, Bool.not_eq_true', decide_eq_false_iff_not] at h
    exact ⟨h.1, h.2⟩
  · intro ⟨h1, h2⟩
    simp [h1, h2]

/-- Witness for C5 on three concrete events: patient present and not
deleted, patient present and deleted, and no patient. -/
theorem ocupado_spec_witness :
    (∀ out, processarEvento 9 18
        { Patient_PersonId := some 7, Deleted := none } = some out →
        out.ocupado = true) ∧
    (∀ out, processarEvento 9 18
        { Patient_PersonId := some 7, Deleted := some "X" } = some out →
        out.ocupado = false) ∧
    (∀ out, processarEvento 9 18
        { Patient_PersonId := none, Deleted := some "X" } = some out →
        out.ocupado = false) := by
  refine ⟨fun out hout => ?_, fun out hout => ?_, fun out hout => ?_⟩
  · exact (ocupado_spec 9 18 _ out hout).mpr (by simp)
  · have h := ocupado_spec 9 18
      { Patient_PersonId := some 7, Deleted := some "X" } out hout
    simp at h
    exact h
  · have h := ocupado_spec 9 18
      { Patient_PersonId := none, Deleted := some "X" } out hout
    simp at h
    exact h

/-! ### C10 — empty-phone candidates always match -/

/-- Claim C10: in patient search by phone, for a query with a non-empty
cleaned digit string, any candidate whose `MobilePhone` and `Phone` are both
empty or absent satisfies the phone match, and when such a candidate heads
the response list it is returned regardless of the queried digits. -/
theorem busca_telefone_vazio_casa (telefone : String) (p : PacDict)
    (rest : List PacDict)
    (hq : digitsOf telefone ≠ "")
    (hm : p.MobilePhone = none ∨ p.MobilePhone = some "")
    (_hp : p.Phone = none ∨ p.Phone = some "") :
    telefoneBate (digitsOf telefone) p = true ∧
    buscar_paciente_por_telefone telefone true (p :: rest) =
      some { id := p.id, nome := p.Name.getD "", telefone := p.MobilePhone.getD "",
             email := p.Email.getD "" } := by
  have hmob : digitsOf (p.MobilePhone.getD "") = "" := by
    rcases hm with h | h <;> simp [h, digitsOf]
  have hbate : telefoneBate (digitsOf telefone) p = true := by
    rw [telefoneBate]
    simp only [hmob]
    rw [pySubstr_nil]
    simp
  refine ⟨hbate, ?_⟩
  rw [buscar_paciente_por_telefone]
  simp only [if_neg hq, List.find?_cons_of_pos _ hbate]
  rfl

/-- Witness for C10: query `"(11) 9999-8888"`, first candidate with both
phone fields absent. -/
theorem busca_telefone_vazio_casa_witness :
    buscar_paciente_por_telefone "(11) 9999-8888" true
      [{ id := some 42, Name := some "Qualquer Pessoa" }] =
      some { id := some 42, nome := "Qualquer Pessoa", telefone := "",
             email := "" } :=
  (busca_telefone_vazio_casa "(11) 9999-8888"
    { id := some 42, Name := some "Qualquer Pessoa" } [] (by decide)
    (Or.inl rfl) (Or.inl rfl)).2

/-! ### C3 — occupied events expand to every overlapped 30-minute cell -/

/-- Membership in the expansion loop: starting from an aligned cell
`(h0, m0)`, the emitted cells are exactly the aligned cells from `(h0, m0)`
up to (excluding) the event end `(he, me)` whose hour lies in the window. -/
theorem mem_slotsDoEvento (hi hf he me h0 m0 h m : Nat)
    (halign : m0 = 0 ∨ m0 = 30) :
    (h, m) ∈ slotsDoEvento hi hf he me h0 m0 ↔
      ((m = 0 ∨ m = 30) ∧ (h0 < h ∨ (h0 = h ∧ m0 ≤ m)) ∧
        (h < he ∨ (h = he ∧ m < me)) ∧ hi ≤ h ∧ h < hf) := by
  revert halign
  induction h0, m0 using slotsDoEvento.induct hi hf he me with
  | case1 h0 m0 hc ih1 ih2 =>
    intro halign
    rcases halign with rfl | rfl
    · have h60 : ¬ (0 + 30 ≥ 60) := by omega
      rw [slotsDoEvento]
      simp only [dif_pos hc, if_neg h60, List.mem_append]
      rw [ih2 h60 (Or.inr rfl)]
      by_cases hw : hi ≤ h0 ∧ h0 < hf
      · simp only [if_pos hw, List.mem_singleton, Prod.mk.injEq]
        omega
      · simp only [if_neg hw, List.not_mem_nil, false_or]
        omega
    · have h60 : 30 + 30 ≥ 60 := by omega
      rw [slotsDoEvento]
      simp only [dif_pos hc, if_pos h60, List.mem_append]
      rw [ih1 h60 (Or.inl rfl)]
      by_cases hw : hi ≤ h0 ∧ h0 < hf
      · simp only [if_pos hw, List.mem_singleton, Prod.mk.injEq]
        omega
      · simp only [if_neg hw, List.not_mem_nil, false_or]
        omega
  | case2 h0 m0 hc =>
    intro halign
    rw [slotsDoEvento]
    simp only [dif_neg hc, List.not_mem_nil, false_iff]
    rcases halign with rfl | rfl <;> omega

/-- Claim C3: an occupied event is expanded to every 30-minute cell from its
start rounded down to a 30-minute boundary up to (excluding) the end parsed
from its stored `hora_fim`, clamped to the window: cell `(h, m)` is marked
occupied iff it is aligned, not before the rounded start, strictly before the
parsed end, and its hour lies inside `[hora_inicio, hora_fim)`. -/
theorem evento_ocupa_celulas (hi hf : Nat) (day : Int) (ev : AgendaEventRow)
    (hfstr a b : String) (resto : List String) (he me h m : Nat)
    (hday : ev.data.day = day)
    (hmin : ev.data.minute < 60)
    (hfim : ev.hora_fim = some hfstr)
    (hne : hfstr ≠ "")
    (hsplit : pySplit ':' hfstr = a :: b :: resto)
    (hpa : pyInt a = some he)
    (hpb : pyInt b = some me) :
    (h, m) ∈ slotsOcupadosDoEvento hi hf day ev ↔
      ((m = 0 ∨ m = 30) ∧
        (ev.data.hour < h ∨ (ev.data.hour = h ∧ (ev.data.minute / 30) * 30 ≤ m)) ∧
        (h < he ∨ (h = he ∧ m < me)) ∧ hi ≤ h ∧ h < hf) := by
  rw [slotsOcupadosDoEvento]
  simp only [hday, hfim, hne, hsplit, hpa, hpb, ne_eq, not_true_eq_false,
    if_neg, if_false]
  exact mem_slotsDoEvento hi hf he me ev.data.hour ((ev.data.minute / 30) * 30)
    h m (by omega)

/-- Witness for C3: the event spanning 9:15–10:05 (stored `hora_fim`
`"10:05"`) occupies exactly the cells 9:00, 9:30 and 10:00 of window 9–18. -/
theorem evento_ocupa_celulas_witness :
    ((9, 0) ∈ slotsOcupadosDoEvento 9 18 0
        { evento_id := "e1", data := ⟨0, 9, 15⟩, hora_fim := some "10:05",
          ocupado := true }) ∧
    ((9, 30) ∈ slotsOcupadosDoEvento 9 18 0
        { evento_id := "e1", data := ⟨0, 9, 15⟩, hora_fim := some "10:05",
          ocupado := true }) ∧
    ((10, 0) ∈ slotsOcupadosDoEvento 9 18 0
        { evento_id := "e1", data := ⟨0, 9, 15⟩, hora_fim := some "10:05",
          ocupado := true }) ∧
    ¬ ((10, 30) ∈ slotsOcupadosDoEvento 9 18 0
        { evento_id := "e1", data := ⟨0, 9, 15⟩, hora_fim := some "10:05",
          ocupado := true }) ∧
    ¬ ((8, 30) ∈ slotsOcupadosDoEvento 9 18 0
        { evento_id := "e1", data := ⟨0, 9, 15⟩, hora_fim := some "10:05",
          ocupado := true }) := by
  have hch := fun h m => evento_ocupa_celulas 9 18 0
    { evento_id := "e1", data := ⟨0, 9, 15⟩, hora_fim := some "10:05",
      ocupado := true }
    "10:05" "10" "05" [] 10 5 h m rfl (by decide) rfl (by decide) (by decide)
    (by decide) (by decide)
  refine ⟨(hch 9 0).mpr (by decide), (hch 9 30).mpr (by decide),
    (hch 10 0).mpr (by decide), fun hmem => ?_, fun hmem => ?_⟩
  · exact absurd ((hch 10 30).mp hmem) (by decide)
  · exact absurd ((hch 8 30).mp hmem) (by decide)

/-! ### C2 — today-boundary suppression -/

/-- Every slot the generation loop emits in today mode starts at or after the
next-slot boundary `(pH, pM)`. -/
theorem gerarSlots_supressao (pH pM hi hf : Nat) (occ : List (Nat × Nat)) :
    ∀ h0 m0 s, s ∈ gerarSlots true pH pM hi hf occ h0 m0 →
      ∃ h m, s.hora_inicio = fmtHora h m ∧
        (pH < h ∨ (pH = h ∧ pM ≤ m)) := by
  intro h0 m0
  induction h0, m0 using gerarSlots.induct true pH pM hi hf occ with
  | case1 h m hlt hskip ih =>
    intro s hs
    rw [gerarSlots, dif_pos hlt, if_pos hskip] at hs
    exact ih s hs
  | case2 h m hlt hskip hbreak =>
    intro s hs
    rw [gerarSlots, dif_pos hlt, if_neg hskip, if_pos hbreak] at hs
    exact absurd hs (List.not_mem_nil s)
  | case3 h m hlt hskip hbreak hocc ih =>
    intro s hs
    rw [gerarSlots, dif_pos hlt, if_neg hskip, if_neg hbreak, if_pos hocc] at hs
    exact ih s hs
  | case4 h m hlt hskip hbreak hocc ih =>
    intro s hs
    rw [gerarSlots, dif_pos hlt, if_neg hskip, if_neg hbreak, if_neg hocc] at hs
    rcases List.mem_cons.mp hs with rfl | hs2
    · refine ⟨h, m, rfl, ?_⟩
      simp only [true_and, not_or, not_and, not_lt] at hskip
      omega
    · exact ih s hs2
  | case5 h m hlt =>
    intro s hs
    rw [gerarSlots, dif_neg hlt] at hs
    exact absurd hs (List.not_mem_nil s)

set_option maxRecDepth 8000 in
/-- Claim C2 as stated is false: with current time exactly 10:30:00 on the
requested (today) day and no occupied events, the slot 10:30–11:00 is NOT in
the returned list — the computed boundary is 11:00, not 10:30. -/
theorem hoje_1030_contraexemplo :
    (⟨"10:30", "11:00"⟩ : Slot) ∉
      obter_agendas_disponiveis true [] ⟨0, 10, 30⟩ ⟨0, 0, 0⟩ 9 18 none := by
  have heval : obter_agendas_disponiveis true [] ⟨0, 10, 30⟩ ⟨0, 0, 0⟩ 9 18 none =
      [⟨"11:00", "11:30"⟩, ⟨"11:30", "12:00"⟩, ⟨"12:00", "12:30"⟩,
       ⟨"12:30", "13:00"⟩, ⟨"13:00", "13:30"⟩, ⟨"13:30", "14:00"⟩,
       ⟨"14:00", "14:30"⟩, ⟨"14:30", "15:00"⟩, ⟨"15:00", "15:30"⟩,
       ⟨"15:30", "16:00"⟩, ⟨"16:00", "16:30"⟩, ⟨"16:30", "17:00"⟩,
       ⟨"17:00", "17:30"⟩, ⟨"17:30", "18:00"⟩] := by
    simp [obter_agendas_disponiveis, proximoSlot, gerarSlots, fimSlot, fmtHora]
    decide
  rw [heval]
  decide

set_option maxRecDepth 8000 in
/-- Claim C2 (amended): when the requested day is today, the suppression
boundary is the next aligned 30-minute boundary strictly after the start of
the current minute (`((minute // 30) + 1) * 30`): no generated slot starts
before it; with current time 10:07 the slots run from 10:30; with current
time exactly 10:30:00 the boundary is 11:00, so the slot 10:30–11:00 is
suppressed and the list starts at 11:00; for non-today dates no slot is
suppressed. -/
theorem hoje_supressao_proximo_slot :
    (∀ rows agora data hi hf pid s, data.day = agora.day →
      s ∈ obter_agendas_disponiveis true rows agora data hi hf pid →
      ∃ h m, s.hora_inicio = fmtHora h m ∧
        ((proximoSlot agora).1 < h ∨
          ((proximoSlot agora).1 = h ∧ (proximoSlot agora).2 ≤ m))) ∧
    (obter_agendas_disponiveis true [] ⟨0, 10, 7⟩ ⟨0, 0, 0⟩ 9 18 none =
      [⟨"10:30", "11:00"⟩, ⟨"11:00", "11:30"⟩, ⟨"11:30", "12:00"⟩,
       ⟨"12:00", "12:30"⟩, ⟨"12:30", "13:00"⟩, ⟨"13:00", "13:30"⟩,
       ⟨"13:30", "14:00"⟩, ⟨"14:00", "14:30"⟩, ⟨"14:30", "15:00"⟩,
       ⟨"15:00", "15:30"⟩, ⟨"15:30", "16:00"⟩, ⟨"16:00", "16:30"⟩,
       ⟨"16:30", "17:00"⟩, ⟨"17:00", "17:30"⟩, ⟨"17:30", "18:00"⟩]) ∧
    (obter_agendas_disponiveis true [] ⟨0, 10, 30⟩ ⟨0, 0, 0⟩ 9 18 none =
      [⟨"11:00", "11:30"⟩, ⟨"11:30", "12:00"⟩, ⟨"12:00", "12:30"⟩,
       ⟨"12:30", "13:00"⟩, ⟨"13:00", "13:30"⟩, ⟨"13:30", "14:00"⟩,
       ⟨"14:00", "14:30"⟩, ⟨"14:30", "15:00"⟩, ⟨"15:00", "15:30"⟩,
       ⟨"15:30", "16:00"⟩, ⟨"16:00", "16:30"⟩, ⟨"16:30", "17:00"⟩,
       ⟨"17:00", "17:30"⟩, ⟨"17:30", "18:00"⟩]) ∧
    (obter_agendas_disponiveis true [] ⟨0, 10, 30⟩ ⟨1, 0, 0⟩ 9 18 none =
      [⟨"9:00", "9:30"⟩, ⟨"9:30", "10:00"⟩, ⟨"10:00", "10:30"⟩,
       ⟨"10:30", "11:00"⟩, ⟨"11:00", "11:30"⟩, ⟨"11:30", "12:00"⟩,
       ⟨"12:00", "12:30"⟩, ⟨"12:30", "13:00"⟩, ⟨"13:00", "13:30"⟩,
       ⟨"13:30", "14:00"⟩, ⟨"14:00", "14:30"⟩, ⟨"14:30", "15:00"⟩,
       ⟨"15:00", "15:30"⟩, ⟨"15:30", "16:00"⟩, ⟨"16:00", "16:30"⟩,
       ⟨"16:30", "17:00"⟩, ⟨"17:00", "17:30"⟩, ⟨"17:30", "18:00"⟩]) := by
  refine ⟨?_, ?_, ?_, ?_⟩
  · intro rows agora data hi hf pid s heq hmem
    rw [obter_agendas_disponiveis] at hmem
    simp only [heq] at hmem
    simp at hmem
    exact gerarSlots_supressao (proximoSlot agora).1 (proximoSlot agora).2
      hi hf _ hi 0 s hmem
  · simp [obter_agendas_disponiveis, proximoSlot, gerarSlots, fimSlot, fmtHora]
    decide
  · simp [obter_agendas_disponiveis, proximoSlot, gerarSlots, fimSlot, fmtHora]
    decide
  · simp [obter_agendas_disponiveis, proximoSlot, gerarSlots, fimSlot, fmtHora]
    decide

/-- Witness for C2 (amended) at the 10:07 instant and the slot 10:30–11:00. -/
theorem hoje_supressao_proximo_slot_witness :
    ∃ h m, Slot.hora_inicio ⟨"10:30", "11:00"⟩ = fmtHora h m ∧
      ((proximoSlot ⟨0, 10, 7⟩).1 < h ∨
        ((proximoSlot ⟨0, 10, 7⟩).1 = h ∧ (proximoSlot ⟨0, 10, 7⟩).2 ≤ m)) :=
  hoje_supressao_proximo_slot.1 [] ⟨0, 10, 7⟩ ⟨0, 0, 0⟩ 9 18 none
    ⟨"10:30", "11:00"⟩ rfl
    (by rw [hoje_supressao_proximo_slot.2.1]; decide)

/-! ### C8 — professional upsert and soft-deactivation -/

/-- `updateFirstProf` keeps the sequence of row ids unchanged. -/
theorem updateFirstProf_ids (db : List DbProf) (pid nome dados : String) :
    (updateFirstProf db pid nome dados).map (fun r => r.profissional_id) =
      db.map (fun r => r.profissional_id) := by
  induction db with
  | nil => rfl
  | cons r rest ih =>
    rw [updateFirstProf]
    by_cases h : r.profissional_id = pid
    · simp [if_pos h]
    · simp [if_neg h, ih]

/-- `updateFirstProf` keeps the row count unchanged. -/
theorem updateFirstProf_length (db : List DbProf) (pid nome dados : String) :
    (updateFirstProf db pid nome dados).length = db.length := by
  induction db with
  | nil => rfl
  | cons r rest ih =>
    rw [updateFirstProf]
    by_cases h : r.profissional_id = pid
    · simp [if_pos h]
    · simp [if_neg h, ih]

/-- After updating a present id in place, an active row with that id exists. -/
theorem updateFirstProf_hit (db : List DbProf) (pid nome dados : String)
    (hex : ∃ r ∈ db, r.profissional_id = pid) :
    ∃ r ∈ updateFirstProf db pid nome dados,
      r.profissional_id = pid ∧ r.ativo = true := by
  induction db with
  | nil => simp at hex
  | cons r0 rest ih =>
    rw [updateFirstProf]
    by_cases h : r0.profissional_id = pid
    · rw [if_pos h]
      exact ⟨_, List.mem_cons_self _ _, h, rfl⟩
    · rw [if_neg h]
      rcases hex with ⟨r1, hr1, hid⟩
      rcases List.mem_cons.mp hr1 with rfl | hr1t
      · exact absurd hid h
      · obtain ⟨r2, hr2, hp⟩ := ih ⟨r1, hr1t, hid⟩
        exact ⟨r2, List.mem_cons_of_mem _ hr2, hp⟩

/-- An active row with some id survives an in-place update at any id. -/
theorem updateFirstProf_keep (db : List DbProf) (pid' nome dados pid : String)
    (hex : ∃ r ∈ db, r.profissional_id = pid ∧ r.ativo = true) :
    ∃ r ∈ updateFirstProf db pid' nome dados,
      r.profissional_id = pid ∧ r.ativo = true := by
  induction db with
  | nil => simp at hex
  | cons r0 rest ih =>
    rw [updateFirstProf]
    by_cases h : r0.profissional_id = pid'
    · rw [if_pos h]
      rcases hex with ⟨r1, hr1, hid, hat⟩
      rcases List.mem_cons.mp hr1 with rfl | hr1t
      · exact ⟨_, List.mem_cons_self _ _, by rw [← hid, h], rfl⟩
      · exact ⟨r1, List.mem_cons_of_mem _ hr1t, hid, hat⟩
    · rw [if_neg h]
      rcases hex with ⟨r1, hr1, hid, hat⟩
      rcases List.mem_cons.mp hr1 with rfl | hr1t
      · exact ⟨r1, List.mem_cons_self _ _, hid, hat⟩
      · obtain ⟨r2, hr2, hp⟩ := ih ⟨r1, hr1t, hid, hat⟩
        exact ⟨r2, List.mem_cons_of_mem _ hr2, hp⟩

/-- An active row with some id survives the whole upsert loop. -/
theorem salvarProfLoop_keep (feed : List ProfData) :
    ∀ (db : List DbProf) (c : Nat) (pid : String),
      (∃ r ∈ db, r.profissional_id = pid ∧ r.ativo = true) →
      ∃ r ∈ (salvarProfLoop feed db c).1,
        r.profissional_id = pid ∧ r.ativo = true := by
  induction feed with
  | nil => intro db c pid hex; exact hex
  | cons p rest ih =>
    intro db c pid hex
    simp only [salvarProfLoop]
    by_cases hskip : pyStr p.id = ""
    · rw [if_pos hskip]
      exact ih db c pid hex
    · rw [if_neg hskip]
      by_cases hfound :
          (db.find? (fun r => r.profissional_id == pyStr p.id)).isSome = true
      · rw [if_pos hfound]
        exact ih _ _ pid (updateFirstProf_keep db (pyStr p.id) _ _ pid hex)
      · rw [if_neg hfound]
        rcases hex with ⟨r1, hr1, hp⟩
        exact ih _ _ pid ⟨r1, List.mem_append_left _ hr1, hp⟩

/-- Every feed entry with a truthy id ends the upsert loop with an active
row under `str(id)`. -/
theorem salvarProfLoop_pres (feed : List ProfData) :
    ∀ (db : List DbProf) (c : Nat) (p : ProfData), p ∈ feed →
      pyStr p.id ≠ "" →
      ∃ r ∈ (salvarProfLoop feed db c).1,
        r.profissional_id = pyStr p.id ∧ r.ativo = true := by
  induction feed with
  | nil => intro db c p hp; simp at hp
  | cons q rest ih =>
    intro db c p hp hpid
    simp only [salvarProfLoop]
    by_cases hskip : pyStr q.id = ""
    · rw [if_pos hskip]
      rcases List.mem_cons.mp hp with rfl | hpt
      · exact absurd hskip hpid
      · exact ih db c p hpt hpid
    · rw [if_neg hskip]
      by_cases hfound :
          (db.find? (fun r => r.profissional_id == pyStr q.id)).isSome = true
      · rw [if_pos hfound]
        rcases List.mem_cons.mp hp with rfl | hpt
        · refine salvarProfLoop_keep rest _ _ _
            (updateFirstProf_hit db (pyStr p.id) _ _ ?_)
          obtain ⟨r, hr, hbeq⟩ := List.find?_isSome.mp hfound
          exact ⟨r, hr, by simpa using hbeq⟩
        · exact ih _ _ p hpt hpid
      · rw [if_neg hfound]
        rcases List.mem_cons.mp hp with rfl | hpt
        · refine salvarProfLoop_keep rest _ _ _ ?_
          refine ⟨_, List.mem_append_right _ (List.mem_singleton.mpr rfl), rfl, rfl⟩
        · exact ih _ _ p hpt hpid

/-- Ids present before the upsert loop are present after it. -/
theorem salvarProfLoop_sub (feed : List ProfData) :
    ∀ (db : List DbProf) (c : Nat) (pid : String),
      pid ∈ db.map (fun r => r.profissional_id) →
      pid ∈ (salvarProfLoop feed db c).1.map (fun r => r.profissional_id) := by
  induction feed with
  | nil => intro db c pid hex; exact hex
  | cons p rest ih =>
    intro db c pid hex
    simp only [salvarProfLoop]
    by_cases hskip : pyStr p.id = ""
    · rw [if_pos hskip]
      exact ih db c pid hex
    · rw [if_neg hskip]
      by_cases hfound :
          (db.find? (fun r => r.profissional_id == pyStr p.id)).isSome = true
      · rw [if_pos hfound]
        refine ih _ _ pid ?_
        rw [updateFirstProf_ids]
        exact hex
      · rw [if_neg hfound]
        refine ih _ _ pid ?_
        rw [List.map_append]
        exact List.mem_append_left _ hex

/-- When every feed id is already present, the upsert loop adds no rows. -/
theorem salvarProfLoop_len (feed : List ProfData) :
    ∀ (db : List DbProf) (c : Nat),
      (∀ p ∈ feed, pyStr p.id = "" ∨
        pyStr p.id ∈ db.map (fun r => r.profissional_id)) →
      (salvarProfLoop feed db c).1.length = db.length := by
  induction feed with
  | nil => intro db c _; rfl
  | cons q rest ih =>
    intro db c hall
    simp only [salvarProfLoop]
    by_cases hskip : pyStr q.id = ""
    · rw [if_pos hskip]
      exact ih db c (fun p hp => hall p (List.mem_cons_of_mem _ hp))
    · rw [if_neg hskip]
      have hqin : pyStr q.id ∈ db.map (fun r => r.profissional_id) :=
        (hall q (List.mem_cons_self _ _)).resolve_left hskip
      have hfound :
          (db.find? (fun r => r.profissional_id == pyStr q.id)).isSome = true := by
        rw [List.find?_isSome]
        obtain ⟨r, hr, hid⟩ := List.mem_map.mp hqin
        exact ⟨r, hr, by simp [hid]⟩
      rw [if_pos hfound]
      rw [ih _ _ ?_, updateFirstProf_length]
      intro p hp
      rcases hall p (List.mem_cons_of_mem _ hp) with h | h
      · exact Or.inl h
      · right
        rw [updateFirstProf_ids]
        exact h

/-- The soft-deactivation pass keeps ids and length, and leaves rows whose
id is in the update set unchanged. -/
theorem deactMap_ids (db : List DbProf) (ids : List String) :
    (db.map (fun r =>
        if r.ativo ∧ r.profissional_id ∉ ids then { r with ativo := false }
        else r)).map (fun r => r.profissional_id) =
      db.map (fun r => r.profissional_id) := by
  rw [List.map_map]
  refine List.map_congr_left fun r _ => ?_
  by_cases h : r.ativo ∧ r.profissional_id ∉ ids <;> simp [h]

/-- Truthy feed ids are members of the update set. -/
theorem mem_idsAtualizados (profissionais : List ProfData) (p : ProfData)
    (hp : p ∈ profissionais) (ht : pyTruthy p.id = true) :
    pyStr p.id ∈ idsAtualizados profissionais :=
  List.mem_filterMap.mpr ⟨p, hp, by simp [ht]⟩

/-- A truthy id is never the empty string. -/
theorem pyTruthy_ne_empty (o : Option String) (ht : pyTruthy o = true) :
    pyStr o ≠ "" := by
  cases o with
  | none => simp [pyTruthy] at ht
  | some s => simpa [pyTruthy, pyStr] using ht

/-- Claim C8: after the professional upsert, every fetched professional with
a truthy id has an active row under its id; every row whose id is absent
from the update set ends inactive; and no row is ever deleted — every prior
id still has a row. The concrete {A, B} → {A} scenario: A is updated and
stays active, B is flipped to `ativo := false` and its row remains. -/
theorem salvar_profissionais_soft_delete :
    (∀ (profissionais : List ProfData) (db : List DbProf),
      ∀ p ∈ profissionais, pyTruthy p.id = true →
      ∃ r ∈ (salvar_profissionais_no_banco true profissionais db).1,
        r.profissional_id = pyStr p.id ∧ r.ativo = true) ∧
    (∀ (profissionais : List ProfData) (db : List DbProf),
      ∀ r ∈ (salvar_profissionais_no_banco true profissionais db).1,
        r.profissional_id ∉ idsAtualizados profissionais → r.ativo = false) ∧
    (∀ (profissionais : List ProfData) (db : List DbProf),
      ∀ r ∈ db,
      ∃ r2 ∈ (salvar_profissionais_no_banco true profissionais db).1,
        r2.profissional_id = r.profissional_id) ∧
    (salvar_profissionais_no_banco true
        [{ id := some "A", nome := some "Ana Silva", raw := "rawA" }]
        [{ profissional_id := "A", nome := "Nome Velho", ativo := true },
         { profissional_id := "B", nome := "Bia Costa", ativo := true }] =
      ([{ profissional_id := "A", nome := "Ana Silva", ativo := true,
          dados_originais := "rawA" },
        { profissional_id := "B", nome := "Bia Costa", ativo := false }], 1)) := by
  refine ⟨?_, ?_, ?_, by decide⟩
  · intro profissionais db p hp ht
    obtain ⟨r, hr, hid, hat⟩ :=
      salvarProfLoop_pres profissionais db 0 p hp (pyTruthy_ne_empty p.id ht)
    rw [salvar_profissionais_no_banco]
    simp only [Bool.not_true, Bool.false_eq_true, if_false]
    refine ⟨r, List.mem_map.mpr ⟨r, hr, ?_⟩, hid, hat⟩
    have hmem : r.profissional_id ∈ idsAtualizados profissionais := by
      rw [hid]
      exact mem_idsAtualizados profissionais p hp ht
    simp [hmem]
  · intro profissionais db r hr hnot
    rw [salvar_profissionais_no_banco] at hr
    simp only [Bool.not_true, Bool.false_eq_true, if_false] at hr
    obtain ⟨r1, _, hr1eq⟩ := List.mem_map.mp hr
    by_cases hc : r1.ativo ∧ r1.profissional_id ∉ idsAtualizados profissionais
    · rw [if_pos hc] at hr1eq
      rw [← hr1eq]
    · rw [if_neg hc] at hr1eq
      subst hr1eq
      rcases Decidable.not_and_iff_or_not.mp hc with h | h
      · simpa using h
      · exact absurd hnot (by simpa using h)
  · intro profissionais db r hr
    have hin : r.profissional_id ∈ db.map (fun r => r.profissional_id) :=
      List.mem_map.mpr ⟨r, hr, rfl⟩
    have hsub := salvarProfLoop_sub profissionais db 0 r.profissional_id hin
    rw [salvar_profissionais_no_banco]
    simp only [Bool.not_true, Bool.false_eq_true, if_false]
    have : r.profissional_id ∈
        ((salvarProfLoop profissionais db 0).1.map (fun r =>
          if r.ativo ∧ r.profissional_id ∉ idsAtualizados profissionais then
            { r with ativo := false } else r)).map
          (fun r => r.profissional_id) := by
      rw [deactMap_ids]
      exact hsub
    obtain ⟨r2, hr2, hideq⟩ := List.mem_map.mp this
    exact ⟨r2, hr2, hideq⟩

/-- Witness for C8: the {A, B} → {A} scenario through the general parts. -/
theorem salvar_profissionais_soft_delete_witness :
    (∃ r ∈ (salvar_profissionais_no_banco true
        [{ id := some "A", nome := some "Ana Silva", raw := "rawA" }]
        [{ profissional_id := "A", nome := "Nome Velho", ativo := true },
         { profissional_id := "B", nome := "Bia Costa", ativo := true }]).1,
      r.profissional_id = "A" ∧ r.ativo = true) ∧
    (∃ r2 ∈ (salvar_profissionais_no_banco true
        [{ id := some "A", nome := some "Ana Silva", raw := "rawA" }]
        [{ profissional_id := "A", nome := "Nome Velho", ativo := true },
         { profissional_id := "B", nome := "Bia Costa", ativo := true }]).1,
      r2.profissional_id = "B") := by
  constructor
  · exact salvar_profissionais_soft_delete.1
      [{ id := some "A", nome := some "Ana Silva", raw := "rawA" }]
      [{ profissional_id := "A", nome := "Nome Velho", ativo := true },
       { profissional_id := "B", nome := "Bia Costa", ativo := true }]
      { id := some "A", nome := some "Ana Silva", raw := "rawA" }
      (List.mem_singleton.mpr rfl) (by decide)
  · exact salvar_profissionais_soft_delete.2.2.1
      [{ id := some "A", nome := some "Ana Silva", raw := "rawA" }]
      [{ profissional_id := "A", nome := "Nome Velho", ativo := true },
       { profissional_id := "B", nome := "Bia Costa", ativo := true }]
      { profissional_id := "B", nome := "Bia Costa", ativo := true }
      (by decide)

/-! ### C9 — idempotent upsert by remote id -/

/-- `updateFirstEvento` keeps the sequence of row ids unchanged. -/
theorem updateFirstEvento_ids (db : List DbEvento) (eid : String)
    (e : EventoProcessado) :
    (updateFirstEvento db eid e).map (fun r => r.evento_id) =
      db.map (fun r => r.evento_id) := by
  induction db with
  | nil => rfl
  | cons r rest ih =>
    rw [updateFirstEvento]
    by_cases h : r.evento_id = eid
    · simp [if_pos h, eventoRowOf, h]
    · simp [if_neg h, ih]

/-- `updateFirstEvento` keeps the row count unchanged. -/
theorem updateFirstEvento_length (db : List DbEvento) (eid : String)
    (e : EventoProcessado) :
    (updateFirstEvento db eid e).length = db.length := by
  induction db with
  | nil => rfl
  | cons r rest ih =>
    rw [updateFirstEvento]
    by_cases h : r.evento_id = eid
    · simp [if_pos h]
    · simp [if_neg h, ih]

/-- Ids present before the event upsert loop are present after it. -/
theorem salvarEventosLoop_sub (feed : List EventoProcessado) :
    ∀ (db : List DbEvento) (c : Nat) (eid : String),
      eid ∈ db.map (fun r => r.evento_id) →
      eid ∈ (salvarEventosLoop feed db c).1.map (fun r => r.evento_id) := by
  induction feed with
  | nil => intro db c eid hex; exact hex
  | cons e rest ih =>
    intro db c eid hex
    simp only [salvarEventosLoop]
    by_cases hskip : pyStr e.id = ""
    · rw [if_pos hskip]
      exact ih db c eid hex
    · rw [if_neg hskip]
      by_cases hfound :
          (db.find? (fun r => r.evento_id == pyStr e.id)).isSome = true
      · rw [if_pos hfound]
        refine ih _ _ eid ?_
        rw [updateFirstEvento_ids]
        exact hex
      · rw [if_neg hfound]
        refine ih _ _ eid ?_
        rw [List.map_append]
        exact List.mem_append_left _ hex

/-- Every feed event with a truthy id ends the upsert loop with a row under
`str(id)`. -/
theorem salvarEventosLoop_pres (feed : List EventoProcessado) :
    ∀ (db : List DbEvento) (c : Nat) (e : EventoProcessado), e ∈ feed →
      pyStr e.id ≠ "" →
      pyStr e.id ∈ (salvarEventosLoop feed db c).1.map (fun r => r.evento_id) := by
  induction feed with
  | nil => intro db c e he; simp at he
  | cons q rest ih =>
    intro db c e he heid
    simp only [salvarEventosLoop]
    by_cases hskip : pyStr q.id = ""
    · rw [if_pos hskip]
      rcases List.mem_cons.mp he with rfl | het
      · exact absurd hskip heid
      · exact ih db c e het heid
    · rw [if_neg hskip]
      by_cases hfound :
          (db.find? (fun r => r.evento_id == pyStr q.id)).isSome = true
      · rw [if_pos hfound]
        rcases List.mem_cons.mp he with rfl | het
        · refine salvarEventosLoop_sub rest _ _ _ ?_
          rw [updateFirstEvento_ids]
          obtain ⟨r, hr, hbeq⟩ := List.find?_isSome.mp hfound
          exact List.mem_map.mpr ⟨r, hr, by simpa using hbeq⟩
        · exact ih _ _ e het heid
      · rw [if_neg hfound]
        rcases List.mem_cons.mp he with rfl | het
        · refine salvarEventosLoop_sub rest _ _ _ ?_
          rw [List.map_append]
          exact List.mem_append_right _ (by simp [eventoRowOf])
        · exact ih _ _ e het heid

/-- When every feed id is already present, the event upsert loop adds no
rows. -/
theorem salvarEventosLoop_len (feed : List EventoProcessado) :
    ∀ (db : List DbEvento) (c : Nat),
      (∀ e ∈ feed, pyStr e.id = "" ∨
        pyStr e.id ∈ db.map (fun r => r.evento_id)) →
      (salvarEventosLoop feed db c).1.length = db.length := by
  induction feed with
  | nil => intro db c _; rfl
  | cons q rest ih =>
    intro db c hall
    simp only [salvarEventosLoop]
    by_cases hskip : pyStr q.id = ""
    · rw [if_pos hskip]
      exact ih db c (fun e he => hall e (List.mem_cons_of_mem _ he))
    · rw [if_neg hskip]
      have hqin : pyStr q.id ∈ db.map (fun r => r.evento_id) :=
        (hall q (List.mem_cons_self _ _)).resolve_left hskip
      have hfound :
          (db.find? (fun r => r.evento_id == pyStr q.id)).isSome = true := by
        rw [List.find?_isSome]
        obtain ⟨r, hr, hid⟩ := List.mem_map.mp hqin
        exact ⟨r, hr, by simp [hid]⟩
      rw [if_pos hfound]
      rw [ih _ _ ?_, updateFirstEvento_length]
      intro e he
      rcases hall e (List.mem_cons_of_mem _ he) with h | h
      · exact Or.inl h
      · right
        rw [updateFirstEvento_ids]
        exact h

/-- Running the professional upsert twice on the same feed leaves the second
row count equal to the first. -/
theorem salvar_profissionais_len_twice (profs : List ProfData)
    (db : List DbProf) :
    ((salvar_profissionais_no_banco true profs
        (salvar_profissionais_no_banco true profs db).1).1).length =
      ((salvar_profissionais_no_banco true profs db).1).length := by
  have hall : ∀ p ∈ profs, pyStr p.id = "" ∨
      pyStr p.id ∈ ((salvar_profissionais_no_banco true profs db).1).map
        (fun r => r.profissional_id) := by
    intro p hp
    by_cases h : pyStr p.id = ""
    · exact Or.inl h
    · right
      obtain ⟨r, hr, hid, _⟩ := salvarProfLoop_pres profs db 0 p hp h
      rw [salvar_profissionais_no_banco]
      simp only [Bool.not_true, Bool.false_eq_true, if_false]
      rw [deactMap_ids]
      exact List.mem_map.mpr ⟨r, hr, hid⟩
  conv_lhs => rw [salvar_profissionais_no_banco]
  simp only [Bool.not_true, Bool.false_eq_true, if_false, List.length_map]
  exact salvarProfLoop_len profs _ 0 hall

/-- Running the event upsert twice on the same feed leaves the second row
count equal to the first. -/
theorem salvar_eventos_len_twice (feed : List EventoProcessado)
    (db : List DbEvento) :
    ((salvar_eventos_no_banco true feed
        (salvar_eventos_no_banco true feed db).1).1).length =
      ((salvar_eventos_no_banco true feed db).1).length := by
  have hall : ∀ e ∈ feed, pyStr e.id = "" ∨
      pyStr e.id ∈ ((salvar_eventos_no_banco true feed db).1).map
        (fun r => r.evento_id) := by
    intro e he
    by_cases h : pyStr e.id = ""
    · exact Or.inl h
    · right
      rw [salvar_eventos_no_banco]
      simp only [Bool.not_true, Bool.false_eq_true, if_false]
      exact salvarEventosLoop_pres feed db 0 e he h
  conv_lhs => rw [salvar_eventos_no_banco]
  simp only [Bool.not_true, Bool.false_eq_true, if_false]
  exact salvarEventosLoop_len feed _ 0 hall

/-- Claim C9: running the full sync twice in succession against the same
environment (unchanged remote feed) leaves the `profissionais` and
`agenda_events` row counts after the second run equal to the counts after
the first run — the per-remote-id upsert creates no duplicate rows. -/
theorem sincronizar_idempotente (env : SyncEnv) (profDb : List DbProf)
    (evDb : List DbEvento) (hist : List HistRecord) :
    ((sincronizar_agenda env (sincronizar_agenda env profDb evDb hist).profs
        (sincronizar_agenda env profDb evDb hist).eventos
        (sincronizar_agenda env profDb evDb hist).hist).profs.length =
      (sincronizar_agenda env profDb evDb hist).profs.length) ∧
    ((sincronizar_agenda env (sincronizar_agenda env profDb evDb hist).profs
        (sincronizar_agenda env profDb evDb hist).eventos
        (sincronizar_agenda env profDb evDb hist).hist).eventos.length =
      (sincronizar_agenda env profDb evDb hist).eventos.length) := by
  obtain ⟨dbc, lp, ba⟩ := env
  cases dbc
  · constructor <;> simp [sincronizar_agenda]
  · cases lp with
    | error e => constructor <;> simp [sincronizar_agenda]
    | ok profs =>
      cases ba with
      | error e =>
        constructor
        · simp only [sincronizar_agenda]
          simp only [Bool.not_true, Bool.false_eq_true, if_false]
          exact salvar_profissionais_len_twice profs profDb
        · simp [sincronizar_agenda]
      | ok evs =>
        constructor
        · simp only [sincronizar_agenda]
          simp only [Bool.not_true, Bool.false_eq_true, if_false]
          exact salvar_profissionais_len_twice profs profDb
        · simp only [sincronizar_agenda]
          simp only [Bool.not_true, Bool.false_eq_true, if_false]
          exact salvar_eventos_len_twice evs evDb

/-! ### C6 — the sync cycle never raises -/

/-- Claim C6: every sync run yields a structured result — success, or
`sucesso := false` with a populated `erro`; with the store disconnected the
run returns the failure result immediately, leaving all tables and the
history untouched, and its outcome does not depend on the remote fetches
(Clinicorp is not contacted); and when a step raises an exception `e`, the
run appends exactly one failed history record with all counts zero carrying
the exception text and returns `{sucesso := false, erro := e}`. -/
theorem sincronizar_nunca_levanta :
    (∀ (env : SyncEnv) (p : List DbProf) (ev : List DbEvento)
        (h : List HistRecord),
      (sincronizar_agenda env p ev h).resultado.sucesso = true ∨
      (sincronizar_agenda env p ev h).resultado.erro.isSome = true) ∧
    (∀ (env : SyncEnv) (p : List DbProf) (ev : List DbEvento)
        (h : List HistRecord), env.dbConnected = false →
      sincronizar_agenda env p ev h =
        ⟨{ sucesso := false, erro := some "Banco de dados nao conectado" },
          p, ev, h⟩) ∧
    (∀ (env env' : SyncEnv) (p : List DbProf) (ev : List DbEvento)
        (h : List HistRecord),
      env.dbConnected = false → env'.dbConnected = false →
      sincronizar_agenda env p ev h = sincronizar_agenda env' p ev h) ∧
    (∀ (env : SyncEnv) (p : List DbProf) (ev : List DbEvento)
        (h : List HistRecord) (e : String), env.dbConnected = true →
      (env.listarProfissionais = Except.error e ∨
        (∃ profs, env.listarProfissionais = Except.ok profs ∧
          env.buscarAgenda = Except.error e)) →
      (sincronizar_agenda env p ev h).resultado =
        { sucesso := false, erro := some e } ∧
      (sincronizar_agenda env p ev h).hist =
        h ++ [⟨0, 0, 0, 0, false, some e⟩]) := by
  refine ⟨?_, ?_, ?_, ?_⟩
  · intro env p ev h
    obtain ⟨dbc, lp, ba⟩ := env
    cases dbc
    · right; rfl
    · cases lp with
      | error e => right; rfl
      | ok profs =>
        cases ba with
        | error e => right; rfl
        | ok evs => left; rfl
  · intro env p ev h hdb
    obtain ⟨dbc, lp, ba⟩ := env
    cases hdb
    rfl
  · intro env env' p ev h hdb hdb'
    obtain ⟨dbc, lp, ba⟩ := env
    obtain ⟨dbc', lp', ba'⟩ := env'
    cases hdb
    cases hdb'
    rfl
  · intro env p ev h e hdb hcase
    obtain ⟨dbc, lp, ba⟩ := env
    cases hdb
    rcases hcase with herr | ⟨profs, hok, herr⟩
    · simp only at herr
      subst herr
      exact ⟨rfl, by simp [sincronizar_agenda, registrar_historico]⟩
    · simp only at hok herr
      subst hok
      subst herr
      exact ⟨rfl, by simp [sincronizar_agenda, registrar_historico]⟩

/-- Witness for C6: a disconnected environment and a throwing environment at
concrete states. -/
theorem sincronizar_nunca_levanta_witness :
    (sincronizar_agenda ⟨false, Except.ok [], Except.ok []⟩ [] [] [] =
      ⟨{ sucesso := false, erro := some "Banco de dados nao conectado" },
        [], [], []⟩) ∧
    ((sincronizar_agenda ⟨true, Except.error "boom", Except.ok []⟩ [] [] []).resultado =
      { sucesso := false, erro := some "boom" } ∧
     (sincronizar_agenda ⟨true, Except.error "boom", Except.ok []⟩ [] [] []).hist =
      [] ++ [⟨0, 0, 0, 0, false, some "boom"⟩]) :=
  ⟨sincronizar_nunca_levanta.2.1 ⟨false, Except.ok [], Except.ok []⟩ [] [] [] rfl,
   sincronizar_nunca_levanta.2.2.2 ⟨true, Except.error "boom", Except.ok []⟩
     [] [] [] "boom" rfl (Or.inl rfl)⟩

/-! ### C1 — POST /agenda/criar with a new patient -/

/-- Claim C1 (failing run): the exact request of the claim — body with
`profissional_id`, `data`, `hora_inicio`, `hora_fim`, `telefone` and
`nome_paciente` but no `paciente_id`, phone unknown — produces HTTP 500 with
an `erro` body (the `TypeError` from the `nome_paciente` keyword), not the
claimed 201 with `sucesso:true`: the handler never reaches find-or-create. -/
theorem rota_criar_agendamento_typeerror :
    route_criar_agendamento (fun _ => { conhecido := false })
      (some { profissional_id := some "123", data := some "2025-03-10",
              hora_inicio := some "09:00", hora_fim := some "09:30",
              telefone := some "11999998888",
              nome_paciente := some "Ana Silva" }) =
      { status := 500, erro := some msgTypeError } := by
  decide

end Clinicorp
